import Mathlib

/-!
Shallow embedding, in Lean 4, of the hierarchical activity-matching and
progress-extraction engine of the Milestone-Report repository
(src/eden.py, src/wavecityclub.py, src/eligo.py, src/ews-lig.py).

Conventions of the embedding:
* Python strings are modelled as `List Char`; Python `float` arithmetic is
  modelled by exact rational arithmetic over `ℚ`.
* Because core Lean marks `Rat.add`/`Rat.mul`/`Rat.div` `@[irreducible]`
  (the kernel cannot evaluate them), the embedding performs rational
  arithmetic through `Rat.divInt` on numerators and denominators
  (`ratMul` below), which denotes exactly the same rational; the bridge
  lemma `ratMul_eq` reconnects it to `*` for proofs.
* A spreadsheet cell value of unknown type is the inductive `PyVal`
  (`none` = Python `None`, `num` = int/float, `str` = text,
  `date` = a `datetime` instance).  Python truthiness is `PyVal.truthy`.
* Code that can raise a Python exception is given the type `Except Unit _`;
  a `try/except` block in the source becomes a `match` on that `Except`.
* The external library calls `float(s)` (CPython float literal parsing,
  finite decimal literals), `re.findall(r"\x5cd+\x5c.?\x5cd*", s)` and
  `pd.to_datetime(s, dayfirst=True)` / `datetime.strptime` (day-first
  date parsing of the numeric and `%b` formats used by these trackers)
  are modelled by the executable functions `parseFloat?`, `firstNumber?`
  and `parseDateStr` below.
-/

/-- Multiplication of rationals computed through `Rat.divInt` so that the
kernel can evaluate it (core's `Rat.mul` is `@[irreducible]`).  Denotes
exactly `a * b`, see `ratMul_eq`. -/
def ratMul (a b : ℚ) : ℚ := Rat.divInt (a.num * b.num) ((a.den : Int) * b.den)

theorem ratMul_eq (a b : ℚ) : ratMul a b = a * b := by
  unfold ratMul
  rw [Rat.divInt_eq_div]
  push_cast
  rw [← div_mul_div_comm, Rat.num_div_den, Rat.num_div_den]

/-- Characters that Python's `str.strip()` / `str.split()` treat as
whitespace (the common ASCII whitespace characters). -/
def pyIsSpace (c : Char) : Bool := c.isWhitespace

/-- Python `str.strip()`: drop whitespace at both ends. -/
def pyStrip (s : List Char) : List Char :=
  ((s.dropWhile pyIsSpace).reverse.dropWhile pyIsSpace).reverse

/-- Python `str.lower()` (ASCII case folding, which is all these sheets use). -/
def pyLower (s : List Char) : List Char := s.map Char.toLower

/-- Python `str.upper()` (ASCII case folding). -/
def pyUpper (s : List Char) : List Char := s.map Char.toUpper

/-- Python `sub in s` for strings: `sub` occurs as a contiguous substring
of `s` (the empty string occurs in everything). -/
def containsSub (s sub : List Char) : Bool :=
  match s with
  | [] => sub.isEmpty
  | _ :: tl => sub.isPrefixOf s || containsSub tl sub

/-- Python `s.replace(old, new)` for a nonempty `old` (all the `replace`
calls in the source use a nonempty pattern); with `old = []` it returns
`s` unchanged. Fuel-based recursion on the length of `s`. -/
def pyReplaceAux (fuel : Nat) (s old new : List Char) : List Char :=
  match fuel, s with
  | 0, _ => s
  | _, [] => []
  | fuel + 1, c :: tl =>
    if old ≠ [] ∧ old.isPrefixOf s then
      new ++ pyReplaceAux fuel (s.drop old.length) old new
    else
      c :: pyReplaceAux fuel tl old new

/-- Python `s.replace(old, new)`. -/
def pyReplace (s old new : List Char) : List Char :=
  pyReplaceAux s.length s old new

/-- Python `str.split()` with no argument: split on runs of whitespace,
discarding empty pieces. -/
def pySplitWs (s : List Char) : List (List Char) :=
  match s with
  | [] => []
  | c :: tl =>
    if pyIsSpace c then pySplitWs tl
    else
      match pySplitWs tl with
      | [] => [[c]]
      | w :: ws =>
        match tl with
        | [] => [[c]]
        | d :: _ => if pyIsSpace d then [c] :: w :: ws else (c :: w) :: ws

/-- Python `str.isdigit()` restricted to ASCII digits: nonempty and all
characters are `0`-`9`. -/
def pyIsDigit (s : List Char) : Bool :=
  !s.isEmpty && s.all Char.isDigit

/-- Numeric value of a list of ASCII digits. -/
def digitsToNat (s : List Char) : Nat :=
  s.foldl (fun acc c => 10 * acc + (c.toNat - '0'.toNat)) 0

/-- Model of CPython `float(s)` on finite decimal literals: optional
surrounding whitespace, optional sign, a mantissa `digits[.digits]` or
`.digits`, and an optional exponent `(e|E)[sign]digits`.  Returns the
exact rational value, or `none` where `float` raises `ValueError`.
(`inf`/`nan` literals are outside the rational model and rejected.) -/
def parseFloat? (s : List Char) : Option ℚ :=
  let t := pyStrip s
  let (sign, t) : Int × List Char :=
    match t with
    | '-' :: r => (-1, r)
    | '+' :: r => (1, r)
    | _ => (1, t)
  let intPart := t.takeWhile Char.isDigit
  let t := t.dropWhile Char.isDigit
  let (fracPart, t) : List Char × List Char :=
    match t with
    | '.' :: r => (r.takeWhile Char.isDigit, r.dropWhile Char.isDigit)
    | _ => ([], t)
  if intPart.isEmpty ∧ fracPart.isEmpty then none
  else
    let num : Int := sign * (digitsToNat (intPart ++ fracPart) : Int)
    let den : Int := (10 : Int) ^ fracPart.length
    match t with
    | [] => some (Rat.divInt num den)
    | e :: r =>
      if e = 'e' ∨ e = 'E' then
        let (eneg, r) : Bool × List Char :=
          match r with
          | '-' :: r2 => (true, r2)
          | '+' :: r2 => (false, r2)
          | _ => (false, r)
        let eDigits := r.takeWhile Char.isDigit
        let r2 := r.dropWhile Char.isDigit
        if eDigits.isEmpty ∨ ¬r2.isEmpty then none
        else
          let p : Int := (10 : Int) ^ digitsToNat eDigits
          some (if eneg then Rat.divInt num (den * p) else Rat.divInt (num * p) den)
      else none

/-- Model of `re.findall(r"\x5cd+\x5c.?\x5cd*", s)[0]`: the first (leftmost,
greedy) maximal match of one-or-more digits, an optional dot, and further
digits; `none` when `s` contains no digit. -/
def firstNumber? (s : List Char) : Option (List Char) :=
  match s with
  | [] => none
  | c :: tl =>
    if c.isDigit then
      let ds := s.takeWhile Char.isDigit
      let rest := s.dropWhile Char.isDigit
      match rest with
      | '.' :: r => some (ds ++ '.' :: r.takeWhile Char.isDigit)
      | _ => some ds
    else firstNumber? tl

/-- A Python value held by a spreadsheet cell. -/
inductive PyVal where
  | none
  | num (q : ℚ)
  | str (s : List Char)
  | date (y m d : Nat)
deriving DecidableEq

/-- Python truthiness of a cell value (`None` and `0` and `""` are falsy;
`datetime` instances are always truthy). -/
def PyVal.truthy : PyVal → Bool
  | .none => false
  | .num q => q != 0
  | .str s => !s.isEmpty
  | .date _ _ _ => true

deriving instance DecidableEq for Except

/-- Decimal representation of a natural number. -/
def natDigits (n : Nat) : List Char := Nat.toDigits 10 n

/-- Fractional decimal digits of `n / d` (for `n < d`), up to `fuel`
digits, stopping early when the expansion terminates. -/
def fracDigitsNat (fuel n d : Nat) : List Char :=
  match fuel with
  | 0 => []
  | fuel + 1 =>
    if n = 0 then []
    else Char.ofNat ('0'.toNat + n * 10 / d) :: fracDigitsNat fuel (n * 10 % d) d

/-- Model of Python `str(x)` on a cell value.  `str` of a number is its
decimal form (`str(55) = "55"`, `str(0.55) = "0.55"`; non-terminating
expansions are truncated at 17 digits, the precision of `repr(float)`);
`str(None) = "None"`; `str` of a `datetime` is its ISO form. -/
def pyStr : PyVal → List Char
  | .none => "None".toList
  | .str s => s
  | .num q =>
    let sign : List Char := if q.num < 0 then ['-'] else []
    let a := q.num.natAbs
    if q.den = 1 then sign ++ natDigits a
    else
      let fr := fracDigitsNat 17 (a % q.den) q.den
      sign ++ natDigits (a / q.den) ++ '.' :: (if fr.isEmpty then ['0'] else fr)
  | .date y m d =>
    natDigits y ++ '-' :: natDigits m ++ '-' :: natDigits d ++ " 00:00:00".toList

/-- Python `str(x)` for a genuine `float` value: always carries a decimal
point (`str(55.0) = "55.0"`), as produced by `round(..., 2)` in the
report builders. -/
def pyStrFloat (q : ℚ) : List Char :=
  let sign : List Char := if q.num < 0 then ['-'] else []
  let a := q.num.natAbs
  let fr := fracDigitsNat 17 (a % q.den) q.den
  sign ++ natDigits (a / q.den) ++ '.' :: (if fr.isEmpty then ['0'] else fr)

example : pyStrip "  ab c  ".toList = "ab c".toList := by decide
example : containsSub "lower basement x".toList "basement".toList = true := by decide
example : containsSub "abc".toList "abd".toList = false := by decide
example : pyReplace "a&b & c".toList "&".toList "and".toList = "aandb and c".toList := by
  decide
example : pySplitWs "  foo  bar baz ".toList = ["foo".toList, "bar".toList, "baz".toList] := by
  decide
example : parseFloat? "55".toList = some 55 := by decide
example : parseFloat? " -0.25 ".toList = some (Rat.divInt (-1) 4) := by decide
example : parseFloat? "5e1".toList = some 50 := by decide
example : parseFloat? "abc".toList = Option.none := by decide
example : parseFloat? "1.2.3".toList = Option.none := by decide
example : firstNumber? "abc12.5x7".toList = some "12.5".toList := by decide
example : firstNumber? "abc".toList = Option.none := by decide
example : pyStr (.num (Rat.divInt 11 20)) = "0.55".toList := by decide
example : pyStr (.num 55) = "55".toList := by decide
example : pyStr (.num (-(Rat.divInt 1 2))) = "-0.5".toList := by decide
example : pyStrFloat 55 = "55.0".toList := by decide

/-! ## src/eden.py — percentage parsing (`parse_percentage_value`) -/

/-- `str(pct_val).replace("%", "").replace(" ", "").strip()` from
`parse_percentage_value` (src/eden.py:574). -/
def edenClean (s : List Char) : List Char :=
  pyStrip (pyReplace (pyReplace s ['%'] []) [' '] [])

/-- `parse_percentage_value` (src/eden.py:564-581).  Numeric values in
`[0,1]` are scaled by 100; other numeric values are returned unchanged
(the `0<=v<=100` branch and the `else` branch both return `float(pct_val)`).
Non-numeric values go through `str`, `%`/space removal and `float`;
`float` raising `ValueError` on an unparsable nonempty string is the
`Except.error` case. -/
def parsePercentageValue (pctVal : PyVal) : Except Unit ℚ :=
  match pctVal with
  | .num q =>
    if 0 ≤ q ∧ q ≤ 1 then .ok (ratMul q 100)
    else if 0 ≤ q ∧ q ≤ 100 then .ok q
    else .ok q
  | _ =>
    let pctStr := edenClean (pyStr pctVal)
    if pctStr.isEmpty then .ok 0
    else
      match parseFloat? pctStr with
      | Option.none => .error ()
      | some r => .ok (if 0 ≤ r ∧ r ≤ 1 then ratMul r 100 else r)

/-! ## src/wavecityclub.py — percentage parsing (`extract_percentage`) -/

/-- `str(cell_value).replace('%', '').strip()` from `extract_percentage`
(src/wavecityclub.py:115). -/
def wccClean (s : List Char) : List Char :=
  pyStrip (pyReplace s ['%'] [])

/-- `extract_percentage` (src/wavecityclub.py:103-127).  Falsy values and
`"-"` give 0; numeric values `<= 1` are scaled by 100, larger ones pass
through; strings are `float`-parsed after `%` removal, and on failure the
first number embedded in the string (`re.findall`) is used; 0.0 only when
none is found.  (In the `firstNumber?` branch the inner `parseFloat?`
always succeeds, since a regex match is a valid float literal; the
`Option.none` fallback there is dead code.) -/
def extractPercentage (cellValue : PyVal) : ℚ :=
  if ¬cellValue.truthy ∨ cellValue = .str "-".toList then 0
  else
    match cellValue with
    | .num q => if q ≤ 1 then ratMul q 100 else q
    | _ =>
      let valStr := wccClean (pyStr cellValue)
      match parseFloat? valStr with
      | some v => if v ≤ 1 then ratMul v 100 else v
      | Option.none =>
        match firstNumber? valStr with
        | some ns =>
          match parseFloat? ns with
          | some v => if 1 < v then v else ratMul v 100
          | Option.none => 0
        | Option.none => 0

example : parsePercentageValue (.num (Rat.divInt 11 20)) = .ok 55 := by decide
example : parsePercentageValue (.str "55%".toList) = .ok 55 := by decide
example : parsePercentageValue (.str " ".toList) = .ok 0 := by decide
example : parsePercentageValue PyVal.none = .error () := by decide
example : extractPercentage (.str "55 %".toList) = 55 := by decide
example : extractPercentage (.str "-".toList) = 0 := by decide
example : extractPercentage (.num (Rat.divInt (-1) 2)) = -50 := by decide

/-- C1 counterexample: on the numeric input 200 both percentage parsers
return 200, which is outside `[0, 100]` — the output is not clamped. -/
theorem C1_counterexample_no_clamp :
    parsePercentageValue (.num 200) = .ok 200 ∧
    extractPercentage (.num 200) = 200 ∧ ¬((200 : ℚ) ≤ 100) := by decide

/-- C1 (amended): the percentage parsers clamp nothing; their output lies
in `[0, 100]` only because the input does: for every numeric input `v`
with `0 ≤ v ≤ 100`, `parse_percentage_value` (src/eden.py) and
`extract_percentage` (src/wavecityclub.py) return a value in `[0, 100]`
(inputs in `[0,1]` are scaled by 100, the rest pass through unchanged);
inputs outside `[0, 100]` are returned unchanged and violate the range. -/
theorem C1_amended_percentage_range (q : ℚ) (h0 : 0 ≤ q) (h1 : q ≤ 100) :
    (∃ r, parsePercentageValue (.num q) = .ok r ∧ 0 ≤ r ∧ r ≤ 100) ∧
    (0 ≤ extractPercentage (.num q) ∧ extractPercentage (.num q) ≤ 100) := by
  constructor
  · simp only [parsePercentageValue]
    by_cases hq1 : q ≤ 1
    · refine ⟨ratMul q 100, by simp [h0, hq1], ?_, ?_⟩ <;> rw [ratMul_eq] <;> nlinarith
    · refine ⟨q, ?_, h0, h1⟩
      simp [h0, h1, hq1]
  · simp only [extractPercentage]
    by_cases hq0 : q = 0
    · subst hq0; decide
    · have ht : (PyVal.num q).truthy = true := by
        simp [PyVal.truthy, hq0]
      rw [if_neg]
      · by_cases hq1 : q ≤ 1
        · simp only [hq1, if_true]
          constructor <;> rw [ratMul_eq] <;> nlinarith
        · simp [hq1, h0, h1]
      · simp [ht]

/-- C1 witness: instantiating the amended theorem at the input 0.55. -/
theorem C1_amended_percentage_range_witness :
    (∃ r, parsePercentageValue (.num (Rat.divInt 11 20)) = .ok r ∧ 0 ≤ r ∧ r ≤ 100) ∧
    (0 ≤ extractPercentage (.num (Rat.divInt 11 20)) ∧
      extractPercentage (.num (Rat.divInt 11 20)) ≤ 100) :=
  C1_amended_percentage_range (Rat.divInt 11 20) (by decide) (by decide)

/-- C3 counterexample: the percentage parsers do not uniformly return 0.0
on strings that cannot be parsed as a number.  `parse_percentage_value`
(src/eden.py) raises `ValueError` on `"abc"` (`float("abc")` is not
guarded there), and `extract_percentage` (src/wavecityclub.py) returns 12
— not 0.0 — on `"12abc"`, which `float` cannot parse, via its embedded-
number fallback. -/
theorem C3_counterexample_unparsable_string :
    parsePercentageValue (.str "abc".toList) = .error () ∧
    extractPercentage (.str "12abc".toList) = 12 ∧ ¬((12 : ℚ) = 0) := by decide

/-- C3 (amended): on a string whose cleaned form is nonempty and not a
float literal, eden's `parse_percentage_value` raises `ValueError` (its
caller catches the exception and the run continues); wavecityclub's
`extract_percentage` never raises, and returns 0.0 exactly when the string
additionally contains no embedded number for the regex fallback. -/
theorem C3_amended_unparsable_string (s : List Char)
    (h1 : parseFloat? (edenClean s) = Option.none)
    (h2 : (edenClean s).isEmpty = false)
    (h3 : parseFloat? (wccClean s) = Option.none)
    (h4 : firstNumber? (wccClean s) = Option.none) :
    parsePercentageValue (.str s) = Except.error () ∧
    extractPercentage (.str s) = 0 := by
  constructor
  · simp only [parsePercentageValue, pyStr]
    rw [if_neg (by simp [h2]), h1]
  · simp only [extractPercentage]
    by_cases hs : ¬(PyVal.str s).truthy = true ∨ PyVal.str s = PyVal.str "-".toList
    · rw [if_pos hs]
    · rw [if_neg hs]
      simp only [pyStr]
      rw [h3, h4]

/-- C3 witness: instantiating the amended theorem at the string "abc". -/
theorem C3_amended_unparsable_string_witness :
    parsePercentageValue (.str "abc".toList) = Except.error () ∧
    extractPercentage (.str "abc".toList) = 0 :=
  C3_amended_unparsable_string "abc".toList (by decide) (by decide) (by decide) (by decide)

/-! ## src/eden.py — match scoring (`enhanced_text_matching`,
`calculate_enhanced_match_score`) -/

/-- The stopword list `common_words` of `enhanced_text_matching`
(src/eden.py:585). -/
def commonWords : List (List Char) :=
  ["work", "activity", "and", "the", "of", "for", "in", "on", "with", "&"].map
    String.toList

/-- The inner `normalize_text` of `enhanced_text_matching`
(src/eden.py:588-590): lower-case, `&`→`and`, whitespace split, drop
stopwords and words of length ≤ 2. -/
def etmNormalize (text : List Char) : List (List Char) :=
  (pySplitWs (pyReplace (pyLower text) ['&'] "and".toList)).filter
    (fun w => !commonWords.contains w && decide (w.length > 2))

/-- `enhanced_text_matching` (src/eden.py:583-599): true when the number
of distinct shared normalized words reaches 0.6 of the smaller word-list
length.  (The float threshold `0.6` is modelled by the exact rational
`3/5`; since the compared quantity is an integer, the comparison agrees
with the binary-float one at every input.) -/
def enhancedTextMatching (text1 text2 : List Char) : Bool :=
  let words1 := etmNormalize text1
  let words2 := etmNormalize text2
  if words1.isEmpty || words2.isEmpty then false
  else
    let overlap := (words1.dedup.filter (fun w => words2.contains w)).length
    decide ((overlap : ℚ) ≥ ratMul (min words1.length words2.length : ℚ) (Rat.divInt 3 5))

/-- The inner `normalize_text` of `calculate_enhanced_match_score`
(src/eden.py:610-611): `re.sub(r"\s+", " ", text.strip().lower())`,
i.e. collapse whitespace runs to single spaces. -/
def cemNormalize (text : List Char) : List Char :=
  List.intercalate [' '] (pySplitWs (pyLower (pyStrip text)))

/-- `calculate_enhanced_match_score` (src/eden.py:601-633): 1.0 on exact
or whitespace-normalized equality; for child names mentioning both
"checking" and "casting", 1.0 when the task text matches one of the
listed checking-and-casting patterns and 0.0 otherwise; 0.0 in every
other case. -/
def calculateEnhancedMatchScore (taskText childNameClean : List Char) : ℚ :=
  if childNameClean = taskText then 1
  else if cemNormalize childNameClean = cemNormalize taskText then 1
  else if containsSub childNameClean "checking".toList ∧
      containsSub childNameClean "casting".toList then
    if containsSub taskText "checking & casting work".toList ∨
        containsSub taskText "checking and casting work".toList ∨
        containsSub taskText "checking & casting".toList ∨
        containsSub taskText "checking and casting".toList ∨
        (containsSub taskText "checking".toList ∧
          containsSub taskText "casting".toList) then 1
    else 0
  else 0

example : enhancedTextMatching "upper basement work".toList
    "upper basement columns".toList = true := by decide
example : enhancedTextMatching "upper basement".toList "roof slab".toList = false := by
  decide
example : calculateEnhancedMatchScore "checking & casting".toList
    "checking and casting work".toList = 1 := by decide
example : calculateEnhancedMatchScore "  some   task ".toList "some task".toList = 1 := by
  decide

/-- C4 counterexample: "abc" is fully contained in "abc def" and the two
strings differ, yet the match scorer returns 0, not a value in
`[0.85, 0.95]` — there is no containment tier in
`calculate_enhanced_match_score`. -/
theorem C4_counterexample_no_containment_tier :
    containsSub "abc def".toList "abc".toList = true ∧
    "abc".toList ≠ "abc def".toList ∧
    calculateEnhancedMatchScore "abc def".toList "abc".toList = 0 ∧
    ¬(Rat.divInt 85 100 ≤ 0) := by decide

/-- C4 (amended): `calculate_enhanced_match_score` has no containment
tier at all: for every pair of strings its score is exactly 0 or exactly
1 (1 on exact/normalized equality or the checking-and-casting special
patterns, 0 otherwise — containment of the shorter string in the longer
has no effect). -/
theorem C4_amended_score_is_binary (taskText childNameClean : List Char) :
    calculateEnhancedMatchScore taskText childNameClean = 0 ∨
    calculateEnhancedMatchScore taskText childNameClean = 1 := by
  unfold calculateEnhancedMatchScore
  split_ifs <;> simp

/-! ## Tracker sheet model and section segmentation (src/eden.py) -/

/-- A read-only view of a worksheet: cell values, bold flags and fill
data indexed by (row, column), as exposed by `tracker_ws.cell(row=...,
column=...)` and `sheet[f"{col}{row}"]`. -/
structure Sheet where
  maxRow : Nat
  cellVal : Nat → Nat → PyVal
  bold : Nat → Nat → Bool
  fillType : Nat → Nat → Option (List Char)
  fillRgb : Nat → Nat → Option (List Char)

/-- `TASK_NAME_COL = 4` (src/eden.py:47). -/
def TASK_NAME_COL : Nat := 4

/-- `PCT_COL = 7` (src/eden.py:48). -/
def PCT_COL : Nat := 7

/-- `PCT_COL_ALT = [6, 8, 9, 10, 5]` (src/eden.py:49). -/
def PCT_COL_ALT : List Nat := [6, 8, 9, 10, 5]

/-- The row condition scanned by `find_next_bold_parent`
(src/eden.py:790-795): task-name cell truthy, non-blank stripped text,
bold font. -/
def nextBoldPred (ws : Sheet) (row : Nat) : Bool :=
  (ws.cellVal row TASK_NAME_COL).truthy &&
  !(pyStrip (pyStr (ws.cellVal row TASK_NAME_COL))).isEmpty &&
  ws.bold row TASK_NAME_COL

/-- `find_next_bold_parent` (src/eden.py:787-803): the first row at or
after `startRow` satisfying `nextBoldPred`, minus one; `maxRow` when
there is none. -/
def findNextBoldParent (ws : Sheet) (startRow maxRow : Nat) : Nat :=
  match (List.range' startRow (maxRow + 1 - startRow)).find? (nextBoldPred ws) with
  | some row => row - 1
  | Option.none => maxRow

/-- The section-anchor scan of `find_child_activity_pct_with_hierarchy`
(src/eden.py:683-695): every row in `range(2, max_row + 1)` whose
task-name cell is truthy (`if cell_val:`) and bold. -/
def anchorRows (ws : Sheet) : List Nat :=
  (List.range' 2 (ws.maxRow + 1 - 2)).filter
    (fun row => (ws.cellVal row TASK_NAME_COL).truthy &&
      ws.bold row TASK_NAME_COL)

/-- The end row of the section anchored at `anchor`
(src/eden.py:697-698): `find_next_bold_parent(tracker_ws, row + 1, max_row)`. -/
def sectionEnd (ws : Sheet) (anchor : Nat) : Nat :=
  findNextBoldParent ws (anchor + 1) ws.maxRow

/-- A sheet on which the claimed section invariants fail: column 4 has
bold cells at rows 2 ("section a"), 4 (a single space) and 6
("section b"). -/
def overlapSheet : Sheet where
  maxRow := 6
  cellVal := fun r c =>
    if c = 4 then
      if r = 2 then .str "section a".toList
      else if r = 4 then .str " ".toList
      else if r = 6 then .str "section b".toList
      else .none
    else .none
  bold := fun r c => decide (c = 4 ∧ (r = 2 ∨ r = 4 ∨ r = 6))
  fillType := fun _ _ => Option.none
  fillRgb := fun _ _ => Option.none

/-- C5 counterexample: on `overlapSheet`, the bold whitespace-only cell
at row 4 is a section anchor (its raw value is truthy), but the
section-end scan skips it because its stripped text is blank: the section
anchored at row 2 runs to row 5, so the sections `[2,5]` and `[4,5]` of
the two anchors overlap, contradicting the claimed invariant. -/
theorem C5_counterexample_overlapping_sections :
    anchorRows overlapSheet = [2, 4, 6] ∧
    sectionEnd overlapSheet 2 = 5 ∧
    sectionEnd overlapSheet 4 = 5 ∧
    4 ≤ sectionEnd overlapSheet 2 := by decide

/-- On an ascending `List.range'`, `find?` returns a row no later than
any satisfying row. -/
theorem find?_range'_le (p : Nat → Bool) (s n a : Nat)
    (ha : a ∈ List.range' s n) (hpa : p a = true) :
    ∃ r, (List.range' s n).find? p = some r ∧ r ≤ a := by
  induction n generalizing s with
  | zero => simp at ha
  | succ n ih =>
    rw [List.range'_succ] at ha ⊢
    by_cases hps : p s = true
    · refine ⟨s, by simp [List.find?_cons, hps], ?_⟩
      rcases List.mem_cons.mp ha with h | h
      · omega
      · have := List.mem_range'.mp h; omega
    · have ha' : a ∈ List.range' (s + 1) n := by
        rcases List.mem_cons.mp ha with h | h
        · exact absurd (h ▸ hpa) hps
        · exact h
      obtain ⟨r, hr, hra⟩ := ih (s + 1) ha'
      exact ⟨r, by simp [List.find?_cons, hps, hr], hra⟩

/-- C5 (amended): a row is a section anchor iff its task-name cell is
truthy (Python truthiness — so a numeric 0 or empty cell is never an
anchor, while whitespace-only text is) and its font is bold; a section
runs from its anchor to just before the next bold row with non-blank
stripped text, or to the sheet's last row.  Provided every anchor's text
is non-blank after stripping, the section of an earlier anchor always
ends before the next anchor begins, so sections never overlap. -/
theorem C5_amended_anchor_and_no_overlap (ws : Sheet) (r a1 a2 : Nat)
    (hblank : ∀ x ∈ anchorRows ws,
      (pyStrip (pyStr (ws.cellVal x TASK_NAME_COL))).isEmpty = false)
    (h1 : a1 ∈ anchorRows ws) (h2 : a2 ∈ anchorRows ws) (h12 : a1 < a2) :
    (r ∈ anchorRows ws ↔ 2 ≤ r ∧ r ≤ ws.maxRow ∧
      (ws.cellVal r TASK_NAME_COL).truthy = true ∧
      ws.bold r TASK_NAME_COL = true) ∧
    sectionEnd ws a1 < a2 := by
  have hmem : ∀ x, x ∈ anchorRows ws ↔ 2 ≤ x ∧ x ≤ ws.maxRow ∧
      (ws.cellVal x TASK_NAME_COL).truthy = true ∧
      ws.bold x TASK_NAME_COL = true := by
    intro x
    unfold anchorRows
    rw [List.mem_filter, List.mem_range'_1]
    constructor
    · rintro ⟨hx, hp⟩
      simp only [Bool.and_eq_true] at hp
      exact ⟨by omega, by omega, hp.1, hp.2⟩
    · rintro ⟨hx1, hx2, hx3, hx4⟩
      exact ⟨by omega, by simp [hx3, hx4]⟩
  refine ⟨hmem r, ?_⟩
  obtain ⟨ha2l, ha2r, ha2t, ha2b⟩ := (hmem a2).mp h2
  unfold sectionEnd findNextBoldParent
  have ha2mem : a2 ∈ List.range' (a1 + 1) (ws.maxRow + 1 - (a1 + 1)) := by
    rw [List.mem_range'_1]; omega
  have hpa2 : nextBoldPred ws a2 = true := by
    unfold nextBoldPred
    simp [ha2t, ha2b, hblank a2 h2]
  obtain ⟨rr, hrr, hrra⟩ := find?_range'_le (nextBoldPred ws) _ _ _ ha2mem hpa2
  rw [hrr]
  have : a1 + 1 ≤ rr := by
    have hmemrr := List.mem_range'_1.mp (List.mem_of_find?_eq_some hrr)
    omega
  show rr - 1 < a2
  omega

/-- A well-formed sheet: bold non-blank anchors at rows 2 and 5. -/
def plainSheet : Sheet where
  maxRow := 7
  cellVal := fun r c =>
    if c = 4 then
      if r = 2 then .str "section a".toList
      else if r = 3 then .str "task one".toList
      else if r = 5 then .str "section b".toList
      else if r = 6 then .str "task two".toList
      else .none
    else .none
  bold := fun r c => decide (c = 4 ∧ (r = 2 ∨ r = 5))
  fillType := fun _ _ => Option.none
  fillRgb := fun _ _ => Option.none

/-- C5 witness: the amended theorem instantiated on `plainSheet` with
anchors 2 and 5. -/
theorem C5_amended_anchor_and_no_overlap_witness :
    (2 ∈ anchorRows plainSheet ↔ 2 ≤ 2 ∧ 2 ≤ plainSheet.maxRow ∧
      (plainSheet.cellVal 2 TASK_NAME_COL).truthy = true ∧
      plainSheet.bold 2 TASK_NAME_COL = true) ∧
    sectionEnd plainSheet 2 < 5 :=
  C5_amended_anchor_and_no_overlap plainSheet 2 2 5 (by decide) (by decide)
    (by decide) (by decide)

/-! ## src/eden.py — NTA section validation and the hierarchy matcher -/

/-- `validate_nta_section_by_row_range` (src/eden.py:439-464): NTA-01
upper-basement sections must start in rows 6-35, NTA-02 lower-basement
sections at row 36 or later; every other combination is allowed. -/
def validateNtaSectionByRowRange (sectionStart sectionEnd : Nat)
    (requiredBasementType ntaNumber : List Char) : Bool :=
  if ntaNumber = "01".toList ∧ requiredBasementType = "upper basement".toList then
    decide (6 ≤ sectionStart ∧ sectionStart ≤ 35)
  else if ntaNumber = "02".toList ∧ requiredBasementType = "lower basement".toList then
    decide (36 ≤ sectionStart)
  else true

/-- Per-cell decision of `verify_nta_section_identity`
(src/eden.py:471-483): `some true` when the cell names the required NTA,
`some false` when it names the other one, `none` otherwise. -/
def cellNtaDecision (ws : Sheet) (requiredNta : List Char) (row col : Nat) :
    Option Bool :=
  let v := ws.cellVal row col
  if v.truthy then
    let cellStr := pyUpper (pyStrip (pyStr v))
    if containsSub cellStr ("NTA-".toList ++ requiredNta) ∨
        containsSub cellStr ("NTA ".toList ++ requiredNta) then some true
    else
      let wrongNta := if requiredNta = "01".toList then "02".toList else "01".toList
      if containsSub cellStr ("NTA-".toList ++ wrongNta) ∨
          containsSub cellStr ("NTA ".toList ++ wrongNta) then some false
      else Option.none
  else Option.none

/-- `verify_nta_section_identity` (src/eden.py:466-486): scan rows
`max(1, start-10) .. start+4`, columns 1-7, in order; the first cell
naming an NTA decides; with no identifier the section is allowed. -/
def verifyNtaSectionIdentity (ws : Sheet) (sectionStart : Nat)
    (requiredNta : List Char) : Bool :=
  let lo := max 1 (sectionStart - 10)
  let pairs := (List.range' lo (sectionStart + 5 - lo)).flatMap
    (fun r => (List.range' 1 7).map (fun c => (r, c)))
  match pairs.findSome? (fun rc => cellNtaDecision ws requiredNta rc.1 rc.2) with
  | some b => b
  | Option.none => true

/-- The bold rows collected by `verify_all_parents_in_section`
(src/eden.py:492-505): stripped lower-case text of truthy bold task-name
cells within ±5 rows of the base row. -/
def foundParents (ws : Sheet) (baseRow maxRow : Nat) : List (List Char) :=
  ((List.range' (max 2 (baseRow - 5))
      (min (baseRow + 6) (maxRow + 1) - max 2 (baseRow - 5))).filter
    (fun r => (ws.cellVal r TASK_NAME_COL).truthy && ws.bold r TASK_NAME_COL)).map
    (fun r => pyLower (pyStrip (pyStr (ws.cellVal r TASK_NAME_COL))))

/-- `verify_all_parents_in_section` (src/eden.py:488-518): every required
parent must match some nearby bold row by containment (either way) or
`enhanced_text_matching`. -/
def verifyAllParentsInSection (ws : Sheet) (baseRow : Nat)
    (requiredParents : List (List Char)) (maxRow : Nat) : Bool :=
  requiredParents.all (fun rp =>
    (foundParents ws baseRow maxRow).any (fun fp =>
      containsSub fp rp || containsSub rp fp || enhancedTextMatching rp fp))

/-- The best-candidate fold of `find_exact_child_in_section`
(src/eden.py:529-554): skip empty-text and bold rows, score the stripped
lower-cased text against the child name, keep the first strictly best
row (initial best score 0). -/
def fecsBest (ws : Sheet) (childNameClean : List Char) (rows : List Nat) :
    Option Nat × ℚ :=
  rows.foldl (fun acc row =>
    let v := ws.cellVal row TASK_NAME_COL
    if v = PyVal.none ∨ (pyStrip (pyStr v)).isEmpty then acc
    else if ws.bold row TASK_NAME_COL then acc
    else
      let score := calculateEnhancedMatchScore (pyLower (pyStrip (pyStr v)))
        childNameClean
      if acc.2 < score then (some row, score) else acc) (Option.none, 0)

/-- `find_exact_child_in_section` (src/eden.py:520-562): the best-scoring
non-bold row in `startRow..endRow`, accepted only when the row is truthy
and the score reaches the 0.95 threshold.  (The binary-float threshold
agrees with the rational `95/100` on the only scores that occur, 0 and 1.) -/
def findExactChildInSection (ws : Sheet) (startRow endRow : Nat)
    (childNameClean : List Char) : Option Nat :=
  match fecsBest ws childNameClean (List.range' startRow (endRow + 1 - startRow)) with
  | (some row, best) =>
    if row ≠ 0 ∧ Rat.divInt 95 100 ≤ best then some row else Option.none
  | (Option.none, _) => Option.none

/-- The three candidate flavours of `find_correct_percentage_column`
(src/eden.py:213-219): a `%`-suffixed string, a number in `[0,100]`, a
decimal in `[0,1]`. -/
inductive PctKind where
  | sym
  | n100
  | dec
deriving DecidableEq

/-- The candidate scan of `find_correct_percentage_column`
(src/eden.py:198-221) over columns `[PCT_COL] + PCT_COL_ALT`.  A cell
whose digit-test passes but whose `float` still fails (e.g. `"1.2.3"`,
`"1-2"`) raises inside the per-column `try` and is skipped. -/
def fcpcCandidates (ws : Sheet) (row : Nat) : List (Nat × PyVal × PctKind) :=
  ([PCT_COL] ++ PCT_COL_ALT).filterMap (fun col =>
    let v := ws.cellVal row col
    if v = PyVal.none then Option.none
    else
      let cellStr := pyStrip (pyStr v)
      if cellStr.getLast? = some '%' then
        let pctStr := pyStrip (pyReplace cellStr ['%'] [])
        if pyIsDigit (pyReplace (pyReplace pctStr ['.'] []) ['-'] []) then
          some (col, v, .sym)
        else Option.none
      else if pyIsDigit (pyReplace (pyReplace cellStr ['.'] []) ['-'] []) then
        match parseFloat? cellStr with
        | some numVal =>
          if 0 ≤ numVal ∧ numVal ≤ 100 then some (col, v, .n100)
          else if 0 ≤ numVal ∧ numVal ≤ 1 then some (col, v, .dec)
          else Option.none
        | Option.none => Option.none
      else Option.none)

/-- `find_correct_percentage_column` (src/eden.py:196-232): among the
candidates, prefer `%`-suffixed strings, then numbers in `[0,100]`, then
decimals in `[0,1]`; `none` when no column qualifies. -/
def findCorrectPercentageColumn (ws : Sheet) (row : Nat) : Option (Nat × PyVal) :=
  let cands := fcpcCandidates ws row
  match cands.find? (fun c => decide (c.2.2 = PctKind.sym)) with
  | some c => some (c.1, c.2.1)
  | Option.none =>
    match cands.find? (fun c => decide (c.2.2 = PctKind.n100)) with
    | some c => some (c.1, c.2.1)
    | Option.none =>
      match cands.find? (fun c => decide (c.2.2 = PctKind.dec)) with
      | some c => some (c.1, c.2.1)
      | Option.none => Option.none

/-- The parent-name cleaning of `find_child_activity_pct_with_hierarchy`
(src/eden.py:645): keep non-`None` entries with non-blank `str(p).strip()`,
lower-cased. -/
def cleanParentNames (parentNames : List PyVal) : List (List Char) :=
  parentNames.filterMap (fun p =>
    if p = PyVal.none then Option.none
    else if (pyStrip (pyStr p)).isEmpty then Option.none
    else some (pyLower (pyStrip (pyStr p))))

/-- The child-name cleaning of `find_child_activity_pct_with_hierarchy`
(src/eden.py:651): `str(child_name).strip().lower() if child_name else ""`. -/
def cleanChildName (childName : PyVal) : List Char :=
  if childName.truthy then pyLower (pyStrip (pyStr childName)) else []

/-- `tower and tower.startswith('NTA') if tower else False`
(src/eden.py:661). -/
def isNtaTower (tower : Option (List Char)) : Bool :=
  match tower with
  | some t => !t.isEmpty && "NTA".toList.isPrefixOf t
  | Option.none => false

/-- The basement-type determination loop of
`find_child_activity_pct_with_hierarchy` (src/eden.py:665-678): the first
parent naming a basement decides; upper basement pairs with NTA-01,
lower basement with NTA-02. -/
def ntaBasementInfo : List (List Char) → Option (List Char × List Char)
  | [] => Option.none
  | parent :: rest =>
    if containsSub (pyLower parent) "upper basement".toList then
      some ("upper basement".toList, "01".toList)
    else if containsSub (pyLower parent) "lower basement".toList then
      some ("lower basement".toList, "02".toList)
    else ntaBasementInfo rest

/-- The per-row acceptance test of STEP 1 of
`find_child_activity_pct_with_hierarchy` (src/eden.py:683-744): the row
is truthy and bold, its text matches a required parent by containment or
`enhanced_text_matching`, the NTA validations pass when an NTA basement
search is active, and all required parents appear nearby. -/
def sectionQualifies (ws : Sheet) (cleanedParents : List (List Char))
    (ntaInfo : Option (List Char × List Char)) (row : Nat) : Bool :=
  (ws.cellVal row TASK_NAME_COL).truthy && ws.bold row TASK_NAME_COL &&
  (cleanedParents.any (fun rp =>
    containsSub (pyLower (pyStrip (pyStr (ws.cellVal row TASK_NAME_COL)))) rp ||
    containsSub rp (pyLower (pyStrip (pyStr (ws.cellVal row TASK_NAME_COL)))) ||
    enhancedTextMatching rp
      (pyLower (pyStrip (pyStr (ws.cellVal row TASK_NAME_COL)))))) &&
  (match ntaInfo with
   | some (btype, num) =>
     validateNtaSectionByRowRange row (findNextBoldParent ws (row + 1) ws.maxRow)
       btype num &&
     verifyNtaSectionIdentity ws row num
   | Option.none => true) &&
  verifyAllParentsInSection ws row cleanedParents ws.maxRow

/-- The `matching_parent_sections` list built by STEP 1 of
`find_child_activity_pct_with_hierarchy` (src/eden.py:681-744):
`(section_start, section_end)` for every qualifying bold row in
`range(2, max_row + 1)`. -/
def matchingParentSections (ws : Sheet) (cleanedParents : List (List Char))
    (ntaInfo : Option (List Char × List Char)) : List (Nat × Nat) :=
  ((List.range' 2 (ws.maxRow + 1 - 2)).filter
      (sectionQualifies ws cleanedParents ntaInfo)).map
    (fun row => (row, findNextBoldParent ws (row + 1) ws.maxRow))

/-- STEP 2 of `find_child_activity_pct_with_hierarchy`
(src/eden.py:750-785): search each matching section for the child; on a
hit read the percentage column and parse it, returning the first parsed
value; a missing child, missing percentage cell, or a parse exception
(caught by the `except` at src/eden.py:780-782) moves on to the next
section; exhaustion returns 0. -/
def searchSections (ws : Sheet) (childNameClean : List Char) :
    List (Nat × Nat) → Except Unit ℚ
  | [] => .ok 0
  | (sStart, sEnd) :: rest =>
    match findExactChildInSection ws (sStart + 1) sEnd childNameClean with
    | Option.none => searchSections ws childNameClean rest
    | some foundRow =>
      match findCorrectPercentageColumn ws foundRow with
      | Option.none => searchSections ws childNameClean rest
      | some (_, pctVal) =>
        match parsePercentageValue pctVal with
        | .ok result => .ok result
        | .error _ => searchSections ws childNameClean rest

/-- `find_child_activity_pct_with_hierarchy` (src/eden.py:635-785).
Every Python exception the body can raise (the `float` inside
`parse_percentage_value`) is caught by the source's own `try/except`, so
the `Except.error` case of the result type is never produced. -/
def findChildActivityPctWithHierarchy (ws : Sheet) (parentNames : List PyVal)
    (childName : PyVal) (tower : Option (List Char)) : Except Unit ℚ :=
  let cleaned := cleanParentNames parentNames
  if cleaned.isEmpty then .ok 0
  else
    let childClean := cleanChildName childName
    if childClean.isEmpty then .ok 0
    else
      let ntaInfo := if isNtaTower tower then ntaBasementInfo cleaned else Option.none
      let sections := matchingParentSections ws cleaned ntaInfo
      if sections.isEmpty then .ok 0
      else searchSections ws childClean sections

/-- A sheet realizing the spec's example scenario 1: a bold section
header "Upper Basement Column & Shear Wall" at row 2 and a non-bold task
"Checking and Casting" at row 3 with 0.55 in the percent column. -/
def demoSheet : Sheet where
  maxRow := 4
  cellVal := fun r c =>
    if r = 2 ∧ c = 4 then .str "Upper Basement Column & Shear Wall".toList
    else if r = 3 ∧ c = 4 then .str "Checking and Casting".toList
    else if r = 3 ∧ c = 7 then .num (Rat.divInt 11 20)
    else .none
  bold := fun r c => decide (r = 2 ∧ c = 4)
  fillType := fun _ _ => Option.none
  fillRgb := fun _ _ => Option.none

set_option maxRecDepth 10000 in
example : findChildActivityPctWithHierarchy demoSheet
    [.str "Upper Basement".toList] (.str "Checking & Casting Work".toList)
    Option.none = .ok 55 := by decide

/-- STEP 2 of the hierarchy matcher always returns a value: every
exception path is handled. -/
theorem searchSections_isOk (ws : Sheet) (c : List Char) (secs : List (Nat × Nat)) :
    ∃ q, searchSections ws c secs = .ok q := by
  induction secs with
  | nil => exact ⟨0, rfl⟩
  | cons se rest ih =>
    obtain ⟨s1, s2⟩ := se
    cases h1 : findExactChildInSection ws (s1 + 1) s2 c with
    | none => simpa only [searchSections, h1] using ih
    | some foundRow =>
      cases h2 : findCorrectPercentageColumn ws foundRow with
      | none => simpa only [searchSections, h1, h2] using ih
      | some colval =>
        obtain ⟨col, pv⟩ := colval
        cases h3 : parsePercentageValue pv with
        | error e => simpa only [searchSections, h1, h2, h3] using ih
        | ok r => exact ⟨r, by simp only [searchSections, h1, h2, h3]⟩

/-- STEP 2 of the hierarchy matcher returns 0 when the child search
fails in every candidate section. -/
theorem searchSections_all_none (ws : Sheet) (c : List Char)
    (secs : List (Nat × Nat))
    (h : ∀ se ∈ secs, findExactChildInSection ws (se.1 + 1) se.2 c = Option.none) :
    searchSections ws c secs = .ok 0 := by
  induction secs with
  | nil => rfl
  | cons se rest ih =>
    obtain ⟨s1, s2⟩ := se
    have h1 : findExactChildInSection ws (s1 + 1) s2 c = Option.none :=
      h (s1, s2) (List.mem_cons_self _ _)
    simp only [searchSections, h1]
    exact ih (fun x hx => h x (List.mem_cons_of_mem _ hx))

/-- C7: the hierarchy matcher never raises — it always produces a value
(`Except.ok`; the one exception its body can raise, from `float` inside
`parse_percentage_value`, is caught by the source's own `try/except`) —
and when no parent section matches, or no child row in any matching
section reaches the 0.95 acceptance threshold, it returns the 0% no-match
result. -/
theorem C7_matcher_never_raises_zero_fallback (ws : Sheet)
    (parentNames : List PyVal) (childName : PyVal) (tower : Option (List Char)) :
    (∃ q, findChildActivityPctWithHierarchy ws parentNames childName tower =
      .ok q) ∧
    ((∀ se ∈ matchingParentSections ws (cleanParentNames parentNames)
        (if isNtaTower tower then ntaBasementInfo (cleanParentNames parentNames)
         else Option.none),
      findExactChildInSection ws (se.1 + 1) se.2 (cleanChildName childName) =
        Option.none) →
      findChildActivityPctWithHierarchy ws parentNames childName tower = .ok 0) := by
  simp only [findChildActivityPctWithHierarchy]
  by_cases hp : (cleanParentNames parentNames).isEmpty = true
  · rw [if_pos hp]; exact ⟨⟨0, rfl⟩, fun _ => rfl⟩
  · rw [if_neg hp]
    by_cases hc : (cleanChildName childName).isEmpty = true
    · rw [if_pos hc]; exact ⟨⟨0, rfl⟩, fun _ => rfl⟩
    · rw [if_neg hc]
      by_cases hs : (matchingParentSections ws (cleanParentNames parentNames)
          (if isNtaTower tower then ntaBasementInfo (cleanParentNames parentNames)
           else Option.none)).isEmpty = true
      · rw [if_pos hs]; exact ⟨⟨0, rfl⟩, fun _ => rfl⟩
      · rw [if_neg hs]
        exact ⟨searchSections_isOk ws _ _, fun hnm => searchSections_all_none ws _ _ hnm⟩

/-- C7 witness: the theorem instantiated on `plainSheet` with a parent
matching no section. -/
theorem C7_matcher_never_raises_zero_fallback_witness :
    (∃ q, findChildActivityPctWithHierarchy plainSheet [.str "zeta".toList]
      (.str "some child".toList) Option.none = .ok q) ∧
    findChildActivityPctWithHierarchy plainSheet [.str "zeta".toList]
      (.str "some child".toList) Option.none = .ok 0 :=
  ⟨(C7_matcher_never_raises_zero_fallback plainSheet [.str "zeta".toList]
      (.str "some child".toList) Option.none).1,
   (C7_matcher_never_raises_zero_fallback plainSheet [.str "zeta".toList]
      (.str "some child".toList) Option.none).2 (by decide)⟩

/-- The basement-type loop only ever pairs upper basement with NTA-01 and
lower basement with NTA-02. -/
theorem ntaBasementInfo_eq_some (l : List (List Char)) (p : List Char × List Char)
    (h : ntaBasementInfo l = some p) :
    p = ("upper basement".toList, "01".toList) ∨
    p = ("lower basement".toList, "02".toList) := by
  induction l with
  | nil => simp [ntaBasementInfo] at h
  | cons a tl ih =>
    simp only [ntaBasementInfo] at h
    split_ifs at h
    · exact Or.inl (Option.some.inj h).symm
    · exact Or.inr (Option.some.inj h).symm
    · exact ih h

/-- Row bounds enforced by `validate_nta_section_by_row_range`. -/
theorem validateNta_bounds (s e : Nat) (b n : List Char)
    (h : validateNtaSectionByRowRange s e b n = true) :
    (n = "02".toList ∧ b = "lower basement".toList → 36 ≤ s) ∧
    (n = "01".toList ∧ b = "upper basement".toList → 6 ≤ s ∧ s ≤ 35) := by
  unfold validateNtaSectionByRowRange at h
  split_ifs at h with h1 h2
  · refine ⟨fun hx => absurd (h1.1.symm.trans hx.1) (by decide),
      fun _ => of_decide_eq_true h⟩
  · refine ⟨fun _ => of_decide_eq_true h,
      fun hx => absurd (h2.1.symm.trans hx.1) (by decide)⟩
  · exact ⟨fun hx => absurd hx h2, fun hx => absurd hx h1⟩

/-- C9: in an NTA tower search whose parent labels name a basement, every
parent-candidate section accepted by the hierarchy matcher obeys the
row-range rule: NTA-02 / lower basement only accepts sections starting at
row 36 or later, and NTA-01 / upper basement only sections starting in
rows 6-35 — so for NTA-02 the match can only select a section starting at
or after row 36, however many sections superficially match the label. -/
theorem C9_nta_section_row_filter (ws : Sheet) (parentNames : List PyVal)
    (tower : Option (List Char)) (btype num : List Char) (s e : Nat)
    (hnta : isNtaTower tower = true)
    (hinfo : ntaBasementInfo (cleanParentNames parentNames) = some (btype, num))
    (hmem : (s, e) ∈ matchingParentSections ws (cleanParentNames parentNames)
      (if isNtaTower tower then ntaBasementInfo (cleanParentNames parentNames)
       else Option.none)) :
    (num = "01".toList ∨ num = "02".toList) ∧
    (if num = "02".toList then 36 ≤ s else 6 ≤ s ∧ s ≤ 35) := by
  simp only [hnta, if_true] at hmem
  rw [hinfo] at hmem
  unfold matchingParentSections at hmem
  obtain ⟨r, hr, heq⟩ := List.mem_map.mp hmem
  have hrs : r = s := congrArg Prod.fst heq
  obtain ⟨_hrange, hqual⟩ := List.mem_filter.mp hr
  unfold sectionQualifies at hqual
  simp only [Bool.and_eq_true] at hqual
  have hval : validateNtaSectionByRowRange r
      (findNextBoldParent ws (r + 1) ws.maxRow) btype num = true := hqual.1.2.1
  have hbounds := validateNta_bounds r (findNextBoldParent ws (r + 1) ws.maxRow)
    btype num hval
  rcases ntaBasementInfo_eq_some _ _ hinfo with hub | hlb
  · have hb : btype = "upper basement".toList := congrArg Prod.fst hub
    have hn : num = "01".toList := congrArg Prod.snd hub
    refine ⟨Or.inl hn, ?_⟩
    rw [if_neg (by rw [hn]; decide), ← hrs]
    exact hbounds.2 ⟨hn, hb⟩
  · have hb : btype = "lower basement".toList := congrArg Prod.fst hlb
    have hn : num = "02".toList := congrArg Prod.snd hlb
    refine ⟨Or.inr hn, ?_⟩
    rw [if_pos (by rw [hn]), ← hrs]
    exact hbounds.1 ⟨hn, hb⟩

/-- An NTA-02-style sheet: a bold "Lower Basement" section header at row
36 with a task row beneath it. -/
def ntaSheet : Sheet where
  maxRow := 37
  cellVal := fun r c =>
    if r = 36 ∧ c = 4 then .str "Lower Basement".toList
    else if r = 37 ∧ c = 4 then .str "Checking and Casting".toList
    else .none
  bold := fun r c => decide (r = 36 ∧ c = 4)
  fillType := fun _ _ => Option.none
  fillRgb := fun _ _ => Option.none

set_option maxRecDepth 40000 in
/-- C9 witness: the theorem instantiated on `ntaSheet` for the NTA-02
lower-basement target, whose accepted section starts at row 36. -/
theorem C9_nta_section_row_filter_witness :
    (("02".toList : List Char) = "01".toList ∨
      ("02".toList : List Char) = "02".toList) ∧
    (if ("02".toList : List Char) = "02".toList then 36 ≤ 36
     else 6 ≤ 36 ∧ 36 ≤ 35) :=
  C9_nta_section_row_filter ntaSheet [.str "Lower Basement".toList]
    (some "NTA-02".toList) "lower basement".toList "02".toList 36 37
    (by decide) (by decide) (by decide)

/-! ## src/wavecityclub.py — activity search -/

/-- `SPECIAL_BLOCKS_ENHANCED_SEARCH` keys (src/wavecityclub.py:64-67). -/
def SPECIAL_BLOCKS_ENHANCED_SEARCH : List (List Char) :=
  ["Block 1 (B1) Banquet Hall", "Fine Dine"].map String.toList

/-- The no-target markers of `find_activity_progress_in_sheet`
(src/wavecityclub.py:204). -/
def noTargetMarkers : List (List Char) :=
  ["no target", "no target for june", "no target for july",
   "no target for august", "-"].map String.toList

/-- `activities_match` (src/wavecityclub.py:135-155): false on empty
inputs, true on exact or case-insensitive equality of the stripped
strings. -/
def activitiesMatch (targetActivity trackerActivity : List Char) : Bool :=
  if targetActivity.isEmpty || trackerActivity.isEmpty then false
  else
    let target := pyStrip targetActivity
    let tracker := pyStrip trackerActivity
    target = tracker || pyLower target = pyLower tracker

/-- The special-block scan of `find_activity_progress_in_sheet`
(src/wavecityclub.py:209-251): rows 1..min(max_row, 60), activity in
column G (7), progress in column AC (29); the first matching row returns
its AC value (0 when AC is empty). -/
def wccSpecialScan (sheet : Sheet) (target : List Char) : Option ℚ :=
  (List.range' 1 (min sheet.maxRow 60)).findSome? (fun row =>
    let v := sheet.cellVal row 7
    if v.truthy then
      if activitiesMatch target (pyStrip (pyStr v)) then
        some (if sheet.cellVal row 29 = PyVal.none then 0
              else extractPercentage (sheet.cellVal row 29))
      else Option.none
    else Option.none)

/-- The default scan of `find_activity_progress_in_sheet`
(src/wavecityclub.py:254-283): rows 1..min(max_row, 20); a matching row
with an empty AC cell does not return — the scan continues. -/
def wccNormalScan (sheet : Sheet) (target : List Char) : Option ℚ :=
  (List.range' 1 (min sheet.maxRow 20)).findSome? (fun row =>
    let v := sheet.cellVal row 7
    if v.truthy then
      if activitiesMatch target (pyStrip (pyStr v)) then
        if sheet.cellVal row 29 ≠ PyVal.none then
          some (extractPercentage (sheet.cellVal row 29))
        else Option.none
      else Option.none
    else Option.none)

/-- `find_activity_progress_in_sheet` (src/wavecityclub.py:195-286).
An empty, blank or no-target target returns 100.0 before any scan; the
special blocks use the enhanced 60-row scan, everything else the 20-row
scan; a scan without a hit returns 0.0.  (The `sheet_name` parameter of
the source only feeds logging and is omitted.) -/
def findActivityProgressInSheet (sheet : Sheet) (targetActivity : List Char)
    (blockName : Option (List Char)) : ℚ :=
  if targetActivity.isEmpty ∨ (pyStrip targetActivity).isEmpty ∨
      noTargetMarkers.contains (pyLower targetActivity) then 100
  else if (match blockName with
           | some b => SPECIAL_BLOCKS_ENHANCED_SEARCH.contains b
           | Option.none => false) then
    match wccSpecialScan sheet targetActivity with
    | some q => q
    | Option.none => 0
  else
    match wccNormalScan sheet targetActivity with
    | some q => q
    | Option.none => 0

/-- A sheet with no cells at all. -/
def emptySheet : Sheet where
  maxRow := 0
  cellVal := fun _ _ => PyVal.none
  bold := fun _ _ => false
  fillType := fun _ _ => Option.none
  fillRgb := fun _ _ => Option.none

example : findActivityProgressInSheet demoSheet "x".toList
    (some "Fine Dine".toList) = 0 := by decide

/-- C6 counterexample: for an empty target activity,
`find_activity_progress_in_sheet` (src/wavecityclub.py) performs no
search but returns 100.0, not the claimed 0% / not-applicable result. -/
theorem C6_counterexample_empty_target_returns_100 :
    findActivityProgressInSheet emptySheet [] (some "Block 5".toList) = 100 ∧
    ¬((100 : ℚ) = 0) := by decide

/-- C6 (amended): a target whose child/activity label is empty, blank or
`None` triggers no search of the tracker — the result is a constant,
independent of the sheet — but the two matchers disagree on the
constant: eden's `find_child_activity_pct_with_hierarchy` returns the 0%
result, while wavecityclub's `find_activity_progress_in_sheet` returns
100.0 (no target is treated as fully met). -/
theorem C6_amended_empty_child_no_search (ws : Sheet) (parentNames : List PyVal)
    (childName : PyVal) (tower : Option (List Char)) (sheet : Sheet)
    (target : List Char) (blockName : Option (List Char))
    (hc : cleanChildName childName = [])
    (ht : (pyStrip target).isEmpty = true) :
    findChildActivityPctWithHierarchy ws parentNames childName tower =
      Except.ok 0 ∧
    findActivityProgressInSheet sheet target blockName = 100 := by
  constructor
  · simp only [findChildActivityPctWithHierarchy]
    by_cases hp : (cleanParentNames parentNames).isEmpty = true
    · rw [if_pos hp]
    · rw [if_neg hp, if_pos (by rw [hc]; rfl)]
  · unfold findActivityProgressInSheet
    rw [if_pos (Or.inr (Or.inl ht))]

/-- C6 witness: the amended theorem instantiated with an empty child
(eden) and an empty target string (wavecityclub) on `emptySheet`. -/
theorem C6_amended_empty_child_no_search_witness :
    findChildActivityPctWithHierarchy emptySheet
      [.str "upper basement".toList] (.str "".toList) Option.none =
      Except.ok 0 ∧
    findActivityProgressInSheet emptySheet "".toList
      (some "Block 5".toList) = 100 :=
  C6_amended_empty_child_no_search emptySheet [.str "upper basement".toList]
    (.str "".toList) Option.none emptySheet "".toList
    (some "Block 5".toList) (by decide) (by decide)

/-! ## Date parsing (model of `pd.to_datetime(..., dayfirst=True)` and the
`datetime.strptime` format chains of src/eligo.py and src/ews-lig.py) -/

/-- Split on the date separators `-` and `/`. -/
def splitDateSeps (s : List Char) : List (List Char) :=
  match s with
  | [] => [[]]
  | c :: tl =>
    let rest := splitDateSeps tl
    if c = '-' ∨ c = '/' then [] :: rest
    else
      match rest with
      | w :: ws => (c :: w) :: ws
      | [] => [[c]]

/-- `%b`-style month abbreviations (case-insensitive). -/
def monthAbbrev? (p : List Char) : Option Nat :=
  let q := pyLower p
  (["jan", "feb", "mar", "apr", "may", "jun", "jul", "aug", "sep", "oct",
    "nov", "dec"].map String.toList).findIdx? (fun a => a = q) |>.map (· + 1)

/-- Model of the string-date parsing used by the trackers
(`pd.to_datetime(s, dayfirst=True, errors="coerce")` and the
`%d-%m-%Y`/`%d/%m/%Y`/`%Y-%m-%d`/`%m/%d/%Y`/`%d-%b-%y` `strptime`
chains): three `-`/`/`-separated fields, year-first when the first field
has four digits, otherwise day-first with a day/month swap when the
day-first reading is impossible; two-digit years mean 2000+.  Returns
`(year, month, day)`, or `none` where the library yields `NaT`. -/
def parseDateStr (s : List Char) : Option (Nat × Nat × Nat) :=
  match splitDateSeps (pyStrip s) with
  | [p1, p2, p3] =>
    let month? : Option Nat :=
      if pyIsDigit p2 then some (digitsToNat p2) else monthAbbrev? p2
    if pyIsDigit p1 ∧ p1.length = 4 then
      match month?, (if pyIsDigit p3 then some (digitsToNat p3) else Option.none) with
      | some m, some d =>
        if 1 ≤ m ∧ m ≤ 12 ∧ 1 ≤ d ∧ d ≤ 31 then some (digitsToNat p1, m, d)
        else Option.none
      | _, _ => Option.none
    else if pyIsDigit p1 ∧ pyIsDigit p3 then
      let d0 := digitsToNat p1
      let y := if p3.length ≤ 2 then 2000 + digitsToNat p3 else digitsToNat p3
      match month? with
      | some m0 =>
        let dm := if 12 < m0 ∧ d0 ≤ 12 then (m0, d0) else (d0, m0)
        if 1 ≤ dm.2 ∧ dm.2 ≤ 12 ∧ 1 ≤ dm.1 ∧ dm.1 ≤ 31 then some (y, dm.2, dm.1)
        else Option.none
      | Option.none => Option.none
    else Option.none
  | _ => Option.none

/-- The date a cell yields in the counters: `datetime` instances are used
directly, strings are parsed, everything else is not a date
(`(year, month, day)`). -/
def parseCellDate : PyVal → Option (Nat × Nat × Nat)
  | .date y m d => some (y, m, d)
  | .str s => parseDateStr s
  | _ => Option.none

example : parseDateStr "05-07-2025".toList = some (2025, 7, 5) := by decide
example : parseDateStr "2025-07-05".toList = some (2025, 7, 5) := by decide
example : parseDateStr "04/25/2025".toList = some (2025, 4, 25) := by decide
example : parseDateStr "5-Jul-25".toList = some (2025, 7, 5) := by decide
example : parseDateStr "hello".toList = Option.none := by decide

/-- A value that parses as a date is truthy (dates always, strings
because the empty string does not parse). -/
theorem parseCellDate_truthy (v : PyVal) (t : Nat × Nat × Nat)
    (h : parseCellDate v = some t) : v.truthy = true := by
  cases v with
  | none => simp [parseCellDate] at h
  | num q => simp [parseCellDate] at h
  | date y m d => rfl
  | str s =>
    cases s with
    | nil => simp [parseCellDate, parseDateStr, pyStrip, splitDateSeps] at h
    | cons c tl => rfl

/-- Counting fold: starting from `n`, adding 1 per satisfying element
gives `n` plus the count. -/
theorem foldl_count_eq {α : Type} (p : α → Bool) (l : List α) (n : Nat) :
    l.foldl (fun acc x => if p x then acc + 1 else acc) n = n + l.countP p := by
  induction l generalizing n with
  | nil => simp [List.countP_nil]
  | cons a tl ih =>
    by_cases hpa : p a = true
    · simp [List.foldl_cons, hpa, ih, List.countP_cons]
      omega
    · simp [List.foldl_cons, hpa, ih, List.countP_cons]

/-! ## src/eligo.py — tinted-date counters -/

/-- `GREEN_HEX = "FF92D050"` (src/eligo.py:32). -/
def GREEN_HEX : List Char := "FF92D050".toList

/-- The green encodings accepted by `count_green_dates_in_month_fixed`
(src/eligo.py:130): `[GREEN_HEX, "92D050", "FF92D050", "00FF92D050"]`. -/
def greenColors : List (List Char) :=
  [GREEN_HEX, "92D050".toList, "FF92D050".toList, "00FF92D050".toList]

/-- The per-cell test of `count_green_dates_in_month`
(src/eligo.py:162-174): truthy value parsing to a date in the target
month and year, on a solid fill whose color is exactly `GREEN_HEX`. -/
def greenDateCell (sheet : Sheet) (year month row col : Nat) : Bool :=
  (sheet.cellVal row col).truthy &&
  (match parseCellDate (sheet.cellVal row col) with
   | some (y, m, _) => decide (y = year ∧ m = month)
   | Option.none => false) &&
  decide (sheet.fillType row col = some "solid".toList) &&
  decide (sheet.fillRgb row col = some GREEN_HEX)

/-- `count_green_dates_in_month` (src/eligo.py:150-178): scan rows
`4..max_row` of the given columns and count the cells passing
`greenDateCell`.  (The workbook-level guard returning 0 for a missing
sheet name is outside this sheet-level model.) -/
def countGreenDatesInMonth (sheet : Sheet) (columns : List Nat)
    (year month : Nat) : Nat :=
  columns.foldl (fun count col =>
    (List.range' 4 (sheet.maxRow + 1 - 4)).foldl (fun cnt row =>
      if greenDateCell sheet year month row col then cnt + 1 else cnt) count) 0

/-- The per-cell test of `count_green_dates_in_month_fixed`
(src/eligo.py:104-137): as `greenDateCell` but accepting any of the
`green_colors` encodings of the tint. -/
def greenDateCellFixed (sheet : Sheet) (year month row col : Nat) : Bool :=
  (sheet.cellVal row col).truthy &&
  (match parseCellDate (sheet.cellVal row col) with
   | some (y, m, _) => decide (y = year ∧ m = month)
   | Option.none => false) &&
  decide (sheet.fillType row col = some "solid".toList) &&
  (match sheet.fillRgb row col with
   | some rgb => greenColors.contains rgb
   | Option.none => false)

/-- `count_green_dates_in_month_fixed` (src/eligo.py:85-148): scan rows
`startRow..endRow` (5-12 at its call site) of the given columns. -/
def countGreenDatesInMonthFixed (sheet : Sheet) (columns : List Nat)
    (year month startRow endRow : Nat) : Nat :=
  columns.foldl (fun count col =>
    (List.range' startRow (endRow + 1 - startRow)).foldl (fun cnt row =>
      if greenDateCellFixed sheet year month row col then cnt + 1 else cnt) count) 0

/-! ## src/ews-lig.py — pour counter and report percentages -/

/-- The per-cell test of `count_pours` (src/ews-lig.py:101-115): the cell
value parses as a date whose month and year equal the target.  Nothing
else about the cell — in particular not its fill — is examined. -/
def pourDateMatches (sheet : Sheet) (monthNum year : Nat) (row col : Nat) : Bool :=
  match parseCellDate (sheet.cellVal row col) with
  | some (y, m, _) => decide (m = monthNum ∧ y = year)
  | Option.none => false

/-- The single-month count of `count_pours` (src/ews-lig.py:98-117). -/
def countPoursMonth (sheet : Sheet) (pourCols : List Nat)
    (rowStart rowEnd monthNum year : Nat) : Nat :=
  pourCols.foldl (fun count col =>
    (List.range' rowStart (rowEnd + 1 - rowStart)).foldl
      (fun cnt row => if pourDateMatches sheet monthNum year row col then cnt + 1
        else cnt) count) 0

/-- `MONTH_TO_NUM` (src/ews-lig.py:27). -/
def monthToNum (m : List Char) : Nat :=
  if m = "June".toList then 6
  else if m = "July".toList then 7
  else if m = "August".toList then 8
  else 0

/-- `count_pours` (src/ews-lig.py:94-118): one count per requested month. -/
def countPours (sheet : Sheet) (pourCols : List Nat) (rowStart rowEnd : Nat)
    (months : List (List Char)) (year : Nat) : List (List Char × Nat) :=
  months.map (fun m =>
    (m, countPoursMonth sheet pourCols rowStart rowEnd (monthToNum m) year))

/-- Nested column/row counting loop as a declarative count over the
scanned cell positions. -/
theorem nested_count (f : Nat → Nat → Bool) (cols rows : List Nat) (n : Nat) :
    cols.foldl (fun count col =>
      rows.foldl (fun cnt row => if f row col then cnt + 1 else cnt) count) n =
    n + (cols.flatMap (fun col => rows.map (fun row => (row, col)))).countP
      (fun rc => f rc.1 rc.2) := by
  induction cols generalizing n with
  | nil => simp [List.countP_nil]
  | cons c cs ih =>
    simp only [List.foldl_cons, List.flatMap_cons, List.countP_append]
    rw [foldl_count_eq (fun row => f row c) rows n, ih]
    rw [List.countP_map]
    have : ((fun rc : Nat × Nat => f rc.1 rc.2) ∘ fun row => (row, c)) =
        fun row => f row c := rfl
    rw [this]
    omega

/-! ## Percent strings of the report builders (src/ews-lig.py and
src/eligo.py) -/

/-- `MONTHS = ["June", "July", "August"]` (src/ews-lig.py:26,
src/eligo.py:33). -/
def MONTHS : List (List Char) := ["June", "July", "August"].map String.toList

/-- `get_previous_months()` (src/ews-lig.py:51-53): only June. -/
def prevMonths : List (List Char) := ["June"].map String.toList

/-- `cum_targets` of `build_structure_dataframe` (src/ews-lig.py:128-130):
the sum of the targets of the first `i+1` months. -/
def cumTargetsAt (targets : List Char → Nat) (i : Nat) : Nat :=
  ((MONTHS.take (i + 1)).map targets).sum

/-- `cum_completed` of `build_structure_dataframe` (src/ews-lig.py:131):
the sum of the completed counts of the first `i+1` months restricted to
the displayed previous months. -/
def cumCompletedAt (completed : List Char → Nat) (i : Nat) : Nat :=
  (((MONTHS.take (i + 1)).filter (fun mm => prevMonths.contains mm)).map
    completed).sum

/-- Round-half-even of `a / b` (Python's `round` on an exact quotient). -/
def roundHalfEvenDiv (a b : Nat) : Nat :=
  let q := a / b
  let r := a % b
  if 2 * r < b then q
  else if 2 * r > b then q + 1
  else if q % 2 = 0 then q else q + 1

/-- `round((d / t) * 100, 2)` (src/ews-lig.py:140, src/eligo.py:264),
modelled as exact rational rounding to two decimals (Python rounds the
binary-float quotient; the two agree except on quotients within a float
ulp of a two-decimal half-way point). -/
def roundPct2 (d t : Nat) : ℚ :=
  Rat.divInt (roundHalfEvenDiv (d * 10000) t) 100

/-- The percent cell of `build_structure_dataframe` (src/ews-lig.py:133-141):
only June is shown; a zero cumulative target yields the string "0.0%";
otherwise `min(round((d/t)*100, 2), 100)` formatted with a `%` sign
(`min` keeps the float when it is ≤ 100, else the integer 100). -/
def ewsLigPct (targets completed : List Char → Nat) (m : List Char) : List Char :=
  if m ≠ "June".toList then []
  else
    let t := cumTargetsAt targets 0
    let d := cumCompletedAt completed 0
    if t = 0 then "0.0%".toList
    else
      let v := roundPct2 d t
      (if v ≤ 100 then pyStrFloat v else natDigits 100) ++ "%".toList

/-- The percent cell of `build_tower_g_structure_dataframe`
(src/eligo.py:258-268): same shape, reading the June target and count
directly. -/
def towerGPct (targets completed : List Char → Nat) (m : List Char) : List Char :=
  if m = "June".toList then
    let t := targets "June".toList
    let d := completed "June".toList
    if t = 0 then "0.0%".toList
    else
      let v := roundPct2 d t
      (if v ≤ 100 then pyStrFloat v else natDigits 100) ++ "%".toList
  else []

example : ewsLigPct (fun m => if m = "June".toList then 4 else 0)
    (fun m => if m = "June".toList then 3 else 0) "June".toList =
    "75.0%".toList := by decide
example : towerGPct (fun _ => 3) (fun _ => 2) "June".toList =
    "66.67%".toList := by decide
example : towerGPct (fun _ => 2) (fun _ => 5) "June".toList =
    "100%".toList := by decide

/-- C2 counterexample: with every target 0 (so the cumulative June target
is 0), both report builders emit "0.0%" for the June percent cell — not
100. -/
theorem C2_counterexample_zero_target_is_zero_pct :
    ewsLigPct (fun _ => 0) (fun _ => 0) "June".toList = "0.0%".toList ∧
    towerGPct (fun _ => 0) (fun _ => 0) "June".toList = "0.0%".toList ∧
    "0.0%".toList ≠ "100.0%".toList ∧ "0.0%".toList ≠ "100%".toList := by
  decide

/-- C2 (amended): when the cumulative target for June is 0, the computed
cumulative percent-work-done is reported as the string "0.0%" — a zero
target is treated as zero progress, not as fully met — in both
`build_structure_dataframe` (src/ews-lig.py) and
`build_tower_g_structure_dataframe` (src/eligo.py).  (July and August
percent cells are left blank by both builders regardless of targets.) -/
theorem C2_amended_zero_cumulative_target (targets completed
    targets2 completed2 : List Char → Nat)
    (h1 : cumTargetsAt targets 0 = 0) (h2 : targets2 "June".toList = 0) :
    ewsLigPct targets completed "June".toList = "0.0%".toList ∧
    towerGPct targets2 completed2 "June".toList = "0.0%".toList := by
  constructor
  · unfold ewsLigPct
    rw [if_neg (by simp)]
    simp [h1]
  · unfold towerGPct
    rw [if_pos rfl]
    have h2' : targets2 ('J' :: 'u' :: 'n' :: 'e' :: []) = 0 := h2
    simp [h2']

/-- C2 witness: the amended theorem at the all-zero target functions. -/
theorem C2_amended_zero_cumulative_target_witness :
    ewsLigPct (fun _ => 0) (fun _ => 1) "June".toList = "0.0%".toList ∧
    towerGPct (fun _ => 0) (fun _ => 1) "June".toList = "0.0%".toList :=
  C2_amended_zero_cumulative_target (fun _ => 0) (fun _ => 1) (fun _ => 0)
    (fun _ => 1) (by decide) (by decide)

/-- The truthiness test in `count_green_dates_in_month` is redundant
relative to date parsing: the per-cell test equals the claim's
conjunction (date parses to the target month/year, solid fill, exact
tint). -/
theorem greenDateCell_no_truthy (sheet : Sheet) (year month row col : Nat) :
    greenDateCell sheet year month row col =
      ((match parseCellDate (sheet.cellVal row col) with
        | some (y, m, _) => decide (y = year ∧ m = month)
        | Option.none => false) &&
       decide (sheet.fillType row col = some "solid".toList) &&
       decide (sheet.fillRgb row col = some GREEN_HEX)) := by
  unfold greenDateCell
  cases hp : parseCellDate (sheet.cellVal row col) with
  | none => simp [hp]
  | some t => simp [hp, parseCellDate_truthy _ _ hp]

/-- As `greenDateCell_no_truthy`, for the fixed variant. -/
theorem greenDateCellFixed_no_truthy (sheet : Sheet) (year month row col : Nat) :
    greenDateCellFixed sheet year month row col =
      ((match parseCellDate (sheet.cellVal row col) with
        | some (y, m, _) => decide (y = year ∧ m = month)
        | Option.none => false) &&
       decide (sheet.fillType row col = some "solid".toList) &&
       (match sheet.fillRgb row col with
        | some rgb => greenColors.contains rgb
        | Option.none => false)) := by
  unfold greenDateCellFixed
  cases hp : parseCellDate (sheet.cellVal row col) with
  | none => simp [hp]
  | some t => simp [hp, parseCellDate_truthy _ _ hp]

/-- C8: the tinted-date counters count exactly the cells of the scanned
range whose value parses as a date with the target year and month AND
whose fill is solid with the designated green tint (`GREEN_HEX` for
`count_green_dates_in_month`; any of the `green_colors` encodings of the
same tint for `count_green_dates_in_month_fixed`).  A matching date with
a different fill, or the right tint with a non-matching month, is not
counted. -/
theorem C8_tinted_date_counter_characterization (sheet : Sheet)
    (columns : List Nat) (year month startRow endRow : Nat) :
    countGreenDatesInMonth sheet columns year month =
      (columns.flatMap (fun col =>
        (List.range' 4 (sheet.maxRow + 1 - 4)).map (fun row => (row, col)))).countP
        (fun rc =>
          (match parseCellDate (sheet.cellVal rc.1 rc.2) with
           | some (y, m, _) => decide (y = year ∧ m = month)
           | Option.none => false) &&
          decide (sheet.fillType rc.1 rc.2 = some "solid".toList) &&
          decide (sheet.fillRgb rc.1 rc.2 = some GREEN_HEX)) ∧
    countGreenDatesInMonthFixed sheet columns year month startRow endRow =
      (columns.flatMap (fun col =>
        (List.range' startRow (endRow + 1 - startRow)).map
          (fun row => (row, col)))).countP
        (fun rc =>
          (match parseCellDate (sheet.cellVal rc.1 rc.2) with
           | some (y, m, _) => decide (y = year ∧ m = month)
           | Option.none => false) &&
          decide (sheet.fillType rc.1 rc.2 = some "solid".toList) &&
          (match sheet.fillRgb rc.1 rc.2 with
           | some rgb => greenColors.contains rgb
           | Option.none => false)) := by
  constructor
  · unfold countGreenDatesInMonth
    rw [nested_count, Nat.zero_add]
    apply List.countP_congr
    intro rc _
    rw [greenDateCell_no_truthy sheet year month rc.1 rc.2]
  · unfold countGreenDatesInMonthFixed
    rw [nested_count, Nat.zero_add]
    apply List.countP_congr
    intro rc _
    rw [greenDateCellFixed_no_truthy sheet year month rc.1 rc.2]

/-- The spec's example scenario 3: columns D (4) and H (8), rows 5-12,
a tinted July date at D6 and a tinted June date at H9. -/
def tintSheet : Sheet where
  maxRow := 12
  cellVal := fun r c =>
    if r = 6 ∧ c = 4 then .date 2025 7 10
    else if r = 9 ∧ c = 8 then .date 2025 6 15
    else .none
  bold := fun _ _ => false
  fillType := fun r c =>
    if (r = 6 ∧ c = 4) ∨ (r = 9 ∧ c = 8) then some "solid".toList
    else Option.none
  fillRgb := fun r c =>
    if (r = 6 ∧ c = 4) ∨ (r = 9 ∧ c = 8) then some GREEN_HEX
    else Option.none

example : countGreenDatesInMonthFixed tintSheet [4, 8] 2025 7 5 12 = 1 := by
  decide
example : countGreenDatesInMonth tintSheet [4, 8] 2025 7 = 1 := by decide

/-- C10: `count_pours` counts exactly the cells of the given pour columns
and row range whose value parses as a date with the target month and
year; and its count is invariant under any change of the sheet's fill
data (same cell values, arbitrary fills), so untinted dates count the
same as tinted ones. -/
theorem C10_count_pours_ignores_fill (sheet sheet2 : Sheet)
    (pourCols : List Nat) (rowStart rowEnd monthNum year : Nat)
    (hval : sheet2.cellVal = sheet.cellVal) :
    countPoursMonth sheet pourCols rowStart rowEnd monthNum year =
      (pourCols.flatMap (fun col =>
        (List.range' rowStart (rowEnd + 1 - rowStart)).map
          (fun row => (row, col)))).countP
        (fun rc =>
          match parseCellDate (sheet.cellVal rc.1 rc.2) with
          | some (y, m, _) => decide (m = monthNum ∧ y = year)
          | Option.none => false) ∧
    countPoursMonth sheet2 pourCols rowStart rowEnd monthNum year =
      countPoursMonth sheet pourCols rowStart rowEnd monthNum year := by
  constructor
  · unfold countPoursMonth
    rw [nested_count, Nat.zero_add]
    apply List.countP_congr
    intro rc _
    exact Iff.rfl
  · unfold countPoursMonth pourDateMatches
    rw [hval]

/-- A copy of `tintSheet` with all fill data erased. -/
def tintSheetNoFill : Sheet :=
  { tintSheet with fillType := fun _ _ => Option.none,
                   fillRgb := fun _ _ => Option.none }

/-- C10 witness: the theorem instantiated on `tintSheet` and its
fill-less copy over columns 4 and 8, rows 5-12, July 2025 (both sheets
count the single July date). -/
theorem C10_count_pours_ignores_fill_witness :
    countPoursMonth tintSheet [4, 8] 5 12 7 2025 =
      (([4, 8] : List Nat).flatMap (fun col =>
        (List.range' 5 (12 + 1 - 5)).map (fun row => (row, col)))).countP
        (fun rc =>
          match parseCellDate (tintSheet.cellVal rc.1 rc.2) with
          | some (y, m, _) => decide (m = 7 ∧ y = 2025)
          | Option.none => false) ∧
    countPoursMonth tintSheetNoFill [4, 8] 5 12 7 2025 =
      countPoursMonth tintSheet [4, 8] 5 12 7 2025 :=
  C10_count_pours_ignores_fill tintSheet tintSheetNoFill [4, 8] 5 12 7 2025 rfl
